import Mathlib

/-!
# Verification of the WebSub-style hub (`src/hub/main.go`)

A shallow embedding of the hub's data model and operations, followed by
theorems about its subscription verification, registry invariants, signed
fan-out publishing, and HTTP front door.

Bytes are modelled as `Nat` values below 256 (`List Nat` for byte strings);
32-bit machine arithmetic is `Nat` arithmetic reduced modulo `2^32`.
-/

namespace Hub

/-! ## Bytes and strings -/

/-- UTF-8 encoding of a single character, as the list of its byte values
(what Go's `[]byte(string)` produces per rune). -/
def utf8EncodeChar (c : Char) : List Nat :=
  let n := c.toNat
  if n < 0x80 then [n]
  else if n < 0x800 then
    [0xC0 ||| (n >>> 6), 0x80 ||| (n &&& 0x3F)]
  else if n < 0x10000 then
    [0xE0 ||| (n >>> 12), 0x80 ||| ((n >>> 6) &&& 0x3F), 0x80 ||| (n &&& 0x3F)]
  else
    [0xF0 ||| (n >>> 18), 0x80 ||| ((n >>> 12) &&& 0x3F),
     0x80 ||| ((n >>> 6) &&& 0x3F), 0x80 ||| (n &&& 0x3F)]

/-- The byte string of a Go string: UTF-8 bytes of its characters
(Go's `[]byte(s)`). -/
def strBytes (s : String) : List Nat :=
  (s.data.map utf8EncodeChar).flatten

/-- The lower-case hex digit for a nibble (Go `encoding/hex` hextable). -/
def hexChar (n : Nat) : Char :=
  "0123456789abcdef".data.getD n '0'

/-- Hex encoding of a byte string, two lower-case digits per byte
(Go's `hex.EncodeToString`). -/
def hexEncode (bs : List Nat) : String :=
  ⟨(bs.map fun b => [hexChar (b / 16), hexChar (b % 16)]).flatten⟩

/-! ## SHA-256 (Go `crypto/sha256`), over byte lists with `Nat` words -/

/-- Truncate to a 32-bit word. -/
def w32 (n : Nat) : Nat := n % 4294967296

/-- Right rotation of a 32-bit word by `k` bits. -/
def rotr (k n : Nat) : Nat := w32 ((n >>> k) ||| (n <<< (32 - k)))

/-- The SHA-256 round constants. -/
def sha256K : List Nat :=
  [1116352408, 1899447441, 3049323471, 3921009573, 961987163,
   1508970993, 2453635748, 2870763221, 3624381080, 310598401,
   607225278, 1426881987, 1925078388, 2162078206, 2614888103,
   3248222580, 3835390401, 4022224774, 264347078, 604807628,
   770255983, 1249150122, 1555081692, 1996064986, 2554220882,
   2821834349, 2952996808, 3210313671, 3336571891, 3584528711,
   113926993, 338241895, 666307205, 773529912, 1294757372,
   1396182291, 1695183700, 1986661051, 2177026350, 2456956037,
   2730485921, 2820302411, 3259730800, 3345764771, 3516065817,
   3600352804, 4094571909, 275423344, 430227734, 506948616,
   659060556, 883997877, 958139571, 1322822218, 1537002063,
   1747873779, 1955562222, 2024104815, 2227730452, 2361852424,
   2428436474, 2756734187, 3204031479, 3329325298]

/-- The SHA-256 initial hash value. -/
def sha256H0 : List Nat :=
  [1779033703, 3144134277, 1013904242, 2773480762,
   1359893119, 2600822924, 528734635, 1541459225]

/-- Big-endian 32-bit word from four bytes. -/
def be32 : List Nat → Nat
  | [b0, b1, b2, b3] => ((b0 * 256 + b1) * 256 + b2) * 256 + b3
  | _ => 0

/-- Split a byte list into big-endian 32-bit words. -/
def toWords : List Nat → List Nat
  | b0 :: b1 :: b2 :: b3 :: rest => be32 [b0, b1, b2, b3] :: toWords rest
  | _ => []

/-- `n` big-endian bytes of a value. -/
def beBytes : Nat → Nat → List Nat
  | 0, _ => []
  | m + 1, val => beBytes m (val / 256) ++ [val % 256]

/-- Extend the 16 message-schedule words by `fuel` more words. -/
def sha256Schedule : Nat → List Nat → List Nat
  | 0, ws => ws
  | f + 1, ws =>
    let i := ws.length
    let wm15 := ws.getD (i - 15) 0
    let wm2 := ws.getD (i - 2) 0
    let s0 := (rotr 7 wm15) ^^^ (rotr 18 wm15) ^^^ (wm15 >>> 3)
    let s1 := (rotr 17 wm2) ^^^ (rotr 19 wm2) ^^^ (wm2 >>> 10)
    sha256Schedule f (ws ++ [w32 (ws.getD (i - 16) 0 + s0 + ws.getD (i - 7) 0 + s1)])

/-- One SHA-256 round on the eight-word working state. -/
def sha256Round (st : List Nat) (k : Nat) (w : Nat) : List Nat :=
  match st with
  | [a, b, c, d, e, f, g, h] =>
    let s1 := (rotr 6 e) ^^^ (rotr 11 e) ^^^ (rotr 25 e)
    let ch := (e &&& f) ^^^ ((e ^^^ 0xffffffff) &&& g)
    let temp1 := w32 (h + s1 + ch + k + w)
    let s0 := (rotr 2 a) ^^^ (rotr 13 a) ^^^ (rotr 22 a)
    let maj := (a &&& b) ^^^ (a &&& c) ^^^ (b &&& c)
    let temp2 := w32 (s0 + maj)
    [w32 (temp1 + temp2), a, b, c, w32 (d + temp1), e, f, g]
  | st => st

/-- Compress one 64-byte block into the hash state. -/
def sha256Compress (hs : List Nat) (block : List Nat) : List Nat :=
  let ws := sha256Schedule 48 (toWords block)
  let st := (sha256K.zip ws).foldl (fun st kw => sha256Round st kw.1 kw.2) hs
  List.zipWith (fun x y => w32 (x + y)) hs st

/-- SHA-256 padding: `0x80`, zeros to 56 mod 64, then the 64-bit big-endian
bit length. -/
def sha256Pad (msg : List Nat) : List Nat :=
  let len := msg.length
  let zeros := (119 - len % 64) % 64
  msg ++ [0x80] ++ List.replicate zeros 0 ++ beBytes 8 (len * 8)

/-- Fold the compression function over successive 64-byte blocks.  `fuel`
bounds the number of blocks (any value at least the block count gives the
same result, since a non-empty padded message loses 64 bytes per step). -/
def sha256Chunks (fuel : Nat) (hs : List Nat) (msg : List Nat) : List Nat :=
  match fuel, msg with
  | _, [] => hs
  | 0, _ => hs
  | f + 1, msg =>
    sha256Chunks f (sha256Compress hs (msg.take 64)) (msg.drop 64)

/-- SHA-256 digest of a byte string, as 32 bytes. -/
def sha256 (msg : List Nat) : List Nat :=
  let padded := sha256Pad msg
  ((sha256Chunks padded.length sha256H0 padded).map (beBytes 4)).flatten

/-! ## HMAC-SHA256 (Go `crypto/hmac` with `sha256.New`) -/

/-- HMAC-SHA256 of `msg` keyed by `key`, as 32 bytes. -/
def hmacSha256 (key msg : List Nat) : List Nat :=
  let k0 := if key.length > 64 then sha256 key else key
  let kpad := k0 ++ List.replicate (64 - k0.length) 0
  let ipad := kpad.map (fun b => b ^^^ 0x36)
  let opad := kpad.map (fun b => b ^^^ 0x5c)
  sha256 (opad ++ sha256 (ipad ++ msg))

/-- `createSignature` (main.go:187) on explicit message bytes:
hex-encoded HMAC-SHA256 of the message keyed by the secret. -/
def createSignatureBytes (secret : String) (messageBytes : List Nat) : String :=
  hexEncode (hmacSha256 (strBytes secret) messageBytes)

/-- `createSignature` (main.go:187): the Signer.
`hmac.New(sha256.New, []byte(secret))`, `mac.Write([]byte(message))`,
hex encoding of the MAC. -/
def createSignature (secret message : String) : String :=
  createSignatureBytes secret (strBytes message)

/-! ## Data model -/

/-- `subscriber` (main.go:18). -/
structure Subscriber where
  callbackURL : String
  secret : String
  topic : String
deriving DecidableEq, Repr

/-- `verifiedSubscribers` (main.go:24): the Registry, an ordered sequence. -/
abbrev Registry := List Subscriber

/-- Go `url.Values`: a map from key to the list of values for that key
(keys unique, as in a Go map). -/
abbrev Values := List (String × List String)

/-- `url.Values.Get`: first value for the key, or `""` when the key is
absent or has no values. -/
def valuesGet (vs : Values) (key : String) : String :=
  match vs.find? (fun p => p.1 = key) with
  | some (_, v :: _) => v
  | _ => ""

/-- An outbound HTTP request built by the hub. -/
structure HttpRequest where
  method : String
  url : String
  headers : List (String × String)
  body : List Nat
deriving DecidableEq, Repr

/-- An HTTP response written to a handler's caller: the status code and the
message passed to `http.Error` / `fmt.Fprint`. -/
structure HttpResponse where
  status : Nat
  body : String
deriving DecidableEq, Repr

/-- `generateRandomString` (main.go:117) after `crypto/rand` has produced
the byte string `randBytes` (16 bytes at the call site): its hex encoding. -/
def generateRandomString (randBytes : List Nat) : String :=
  hexEncode randBytes

/-- `json.Marshal(map[string]string{"message": "New content available"})`
(main.go:133): the fixed publish payload bytes. -/
def jsonData : List Nat :=
  strBytes "\x7b\"message\":\"New content available\"\x7d"

/-- `sendSignedContent` (main.go:161): the delivery request it issues —
a POST to the subscriber's callback URL carrying the payload with the
`Content-Type` and `X-Hub-Signature` headers. -/
def sendSignedContent (sub : Subscriber) (jsonBytes : List Nat)
    (signature : String) : HttpRequest :=
  { method := "POST"
    url := sub.callbackURL
    headers := [("Content-Type", "application/json"),
                ("X-Hub-Signature", "sha256=" ++ signature)]
    body := jsonBytes }

/-! ## Event traces

Each handler is embedded as the ordered sequence of its side effects:
lock operations on `verifiedSubscribersMutex`, registry accesses, outbound
network calls, and the response written to the caller.  Delivery goroutines
spawned by `publishContent` run concurrently with the handler's tail; their
events are serialized after the handler's own (any interleaving leaves the
lock-discipline and registry facts below unchanged, since the goroutines
never touch the lock or the registry). -/

/-- One side effect of a handler. -/
inductive Event where
  /-- A response written to the HTTP caller. -/
  | respond (status : Nat) (body : String)
  /-- `verifiedSubscribersMutex.Lock()`. -/
  | lock
  /-- `verifiedSubscribersMutex.Unlock()`. -/
  | unlock
  /-- The append `verifiedSubscribers = append(verifiedSubscribers, sub)`. -/
  | appendSub (sub : Subscriber)
  /-- The snapshot copy `copy(verifiedSubsCopy, verifiedSubscribers)`. -/
  | readRegistry
  /-- The verification `http.Get` with query parameters `hub.mode=subscribe`,
  `hub.topic=<topic>`, `hub.challenge=<challenge>` on the callback URL. -/
  | challengeGet (callback topic challenge : String)
  /-- A delivery `client.Do(req)` in a spawned goroutine; `ok` records
  whether the transport succeeded. -/
  | deliveryPost (req : HttpRequest) (ok : Bool)
deriving DecidableEq, Repr

/-- The registry after replaying a trace's appends, in order. -/
def applyEvents (reg : Registry) : List Event → Registry
  | [] => reg
  | Event.appendSub sub :: es => applyEvents (reg ++ [sub]) es
  | _ :: es => applyEvents reg es

/-! ## Verifier -/

/-- `verifySubscriber` (main.go:56), as its effect trace.  `randBytes` is
what `crypto/rand.Read` produced (`none` = read error, early return);
`response` is the challenge GET's response body (`none` = transport or
body-read error, early return).  On a byte-for-byte match of the body with
the challenge the subscriber is appended under the mutex; otherwise the
request is dropped. -/
def verifyEvents (sub : Subscriber) (randBytes : Option (List Nat))
    (response : Option (List Nat)) : List Event :=
  match randBytes with
  | none => []
  | some rb =>
    let challenge := generateRandomString rb
    Event.challengeGet sub.callbackURL sub.topic challenge ::
      match response with
      | none => []
      | some body =>
        if body = strBytes challenge then
          [Event.lock, Event.appendSub sub, Event.unlock]
        else
          []

/-- The registry effect of `verifySubscriber` (main.go:56). -/
def verifySubscriber (reg : Registry) (sub : Subscriber)
    (randBytes : Option (List Nat)) (response : Option (List Nat)) : Registry :=
  applyEvents reg (verifyEvents sub randBytes response)

/-! ## HTTP front door: subscribe -/

/-- `getSubscriberRequest` (main.go:26), as its effect trace.  `parsed` is
the result of `parseRequestBody` (`none` = read/parse error). -/
def subscribeEvents (method : String) (parsed : Option Values)
    (randBytes : Option (List Nat)) (response : Option (List Nat)) :
    List Event :=
  if method ≠ "POST" then
    [Event.respond 405 "Only POST method is allowed"]
  else
    match parsed with
    | none => [Event.respond 400 "can't parse body"]
    | some vs =>
      let callbackURL := valuesGet vs "hub.callback"
      let secret := valuesGet vs "hub.secret"
      let topic := valuesGet vs "hub.topic"
      if callbackURL = "" ∨ topic = "" ∨ secret = "" then
        [Event.respond 400 "Missing subscriber data"]
      else
        let newSubscriber : Subscriber := ⟨callbackURL, secret, topic⟩
        Event.respond 200 "Subscription request received." ::
          verifyEvents newSubscriber randBytes response

/-- The first response a trace writes. -/
def firstResponse (es : List Event) : Option HttpResponse :=
  es.findSome? fun e =>
    match e with
    | Event.respond s b => some ⟨s, b⟩
    | _ => none

/-- `getSubscriberRequest` (main.go:26): the response to the caller and the
resulting registry. -/
def getSubscriberRequest (reg : Registry) (method : String)
    (parsed : Option Values) (randBytes : Option (List Nat))
    (response : Option (List Nat)) : HttpResponse × Registry :=
  let es := subscribeEvents method parsed randBytes response
  ((firstResponse es).getD ⟨0, ""⟩, applyEvents reg es)

/-! ## Publisher -/

/-- The per-delivery requests of a publish fan-out over a snapshot: for each
subscriber, the signature over the exact payload bytes under that
subscriber's secret, then the signed POST (main.go:151–155). -/
def deliveryRequests (snapshot : Registry) : List HttpRequest :=
  snapshot.map fun sub =>
    sendSignedContent sub jsonData (createSignatureBytes sub.secret jsonData)

/-- `publishContent` (main.go:125), as its effect trace.  `reg` is the
registry at the instant the mutex is acquired; `outcomes` are the transport
results of the spawned deliveries (surplus entries ignored). -/
def publishEvents (method : String) (reg : Registry) (outcomes : List Bool) :
    List Event :=
  if method ≠ "GET" then
    [Event.respond 405 "Method not allowed"]
  else
    [Event.lock, Event.readRegistry, Event.unlock,
     Event.respond 200
       ("Content published to " ++ toString reg.length ++
        " verified subscribers.\n")] ++
      (List.zip (deliveryRequests reg) outcomes).map fun ro =>
        Event.deliveryPost ro.1 ro.2

/-- `publishContent` (main.go:125): the response to the caller, the count it
reports, and the snapshot driving the fan-out. -/
structure PublishEffect where
  response : HttpResponse
  count : Nat
  snapshot : Registry
deriving DecidableEq, Repr

/-- `publishContent` (main.go:125): snapshot the registry under the mutex,
release the lock, spawn the deliveries, and report the snapshot length.
`reg` is the registry at the instant the mutex is acquired. -/
def publishContent (method : String) (reg : Registry)
    (_outcomes : List Bool) : PublishEffect :=
  if method ≠ "GET" then
    { response := ⟨405, "Method not allowed"⟩, count := 0, snapshot := [] }
  else
    let verifiedSubsCopy := reg
    { response :=
        ⟨200, "Content published to " ++ toString verifiedSubsCopy.length ++
          " verified subscribers.\n"⟩
      count := verifiedSubsCopy.length
      snapshot := verifiedSubsCopy }

/-! ## Whole-system step -/

/-- One inbound operation of the system, with the environment's part of the
interaction (parse results, random bytes, challenge response, delivery and
collaborator outcomes) made explicit. -/
inductive Op where
  /-- `POST /` handled by `getSubscriberRequest`. -/
  | subscribe (method : String) (parsed : Option Values)
      (randBytes : Option (List Nat)) (response : Option (List Nat))
  /-- `GET /publish` handled by `publishContent`. -/
  | publish (method : String) (outcomes : List Bool)
  /-- `GET /resub` handled by `initiateSubscriptionDance` (main.go:195);
  it only calls the collaborator service and logs. -/
  | resub (method : String) (status : Option Nat)
  /-- `fetchSubscriberLogs` (main.go:215); it only calls the collaborator
  service and logs. -/
  | fetchLogs (body : Option (List Nat))

/-- The registry after one operation.  `initiateSubscriptionDance` and
`fetchSubscriberLogs` never touch `verifiedSubscribers`; `publishContent`
only reads it. -/
def stepRegistry (reg : Registry) : Op → Registry
  | Op.subscribe method parsed randBytes response =>
    (getSubscriberRequest reg method parsed randBytes response).2
  | Op.publish _ _ => reg
  | Op.resub _ _ => reg
  | Op.fetchLogs _ => reg

/-! ## Lock discipline -/

/-- Scan a trace tracking the mutex depth: registry accesses (append,
snapshot copy) must hold the lock, outbound network calls must not. -/
def lockCheck (depth : Nat) : List Event → Bool
  | [] => true
  | Event.lock :: es => lockCheck (depth + 1) es
  | Event.unlock :: es => decide (0 < depth) && lockCheck (depth - 1) es
  | Event.appendSub _ :: es => decide (0 < depth) && lockCheck depth es
  | Event.readRegistry :: es => decide (0 < depth) && lockCheck depth es
  | Event.challengeGet _ _ _ :: es => decide (depth = 0) && lockCheck depth es
  | Event.deliveryPost _ _ :: es => decide (depth = 0) && lockCheck depth es
  | Event.respond _ _ :: es => lockCheck depth es

/-! ## Helper lemmas -/

lemma utf8EncodeChar_ne_nil (c : Char) : utf8EncodeChar c ≠ [] := by
  simp only [utf8EncodeChar]
  split_ifs <;> simp

lemma strBytes_ne_nil (s : String) (h : s.data ≠ []) : strBytes s ≠ [] := by
  cases s with
  | mk data =>
    cases data with
    | nil => simp at h
    | cons c cs =>
      simp only [strBytes, List.map_cons, List.flatten_cons]
      intro heq
      rcases List.append_eq_nil.mp heq with ⟨h1, _⟩
      exact utf8EncodeChar_ne_nil c h1

lemma generateRandomString_data_ne_nil (rb : List Nat) (h : rb ≠ []) :
    (generateRandomString rb).data ≠ [] := by
  cases rb with
  | nil => exact absurd rfl h
  | cons b t => simp [generateRandomString, hexEncode]

lemma challenge_strBytes_ne_nil (rb : List Nat) (h : rb ≠ []) :
    strBytes (generateRandomString rb) ≠ [] :=
  strBytes_ne_nil _ (generateRandomString_data_ne_nil rb h)

lemma applyEvents_respond (reg : Registry) (s : Nat) (b : String)
    (es : List Event) :
    applyEvents reg (Event.respond s b :: es) = applyEvents reg es := rfl

lemma verifySubscriber_cases (reg : Registry) (sub : Subscriber)
    (rb : Option (List Nat)) (resp : Option (List Nat)) :
    verifySubscriber reg sub rb resp = reg ∨
    (∃ rbv body, rb = some rbv ∧ resp = some body ∧
      body = strBytes (generateRandomString rbv) ∧
      verifySubscriber reg sub rb resp = reg ++ [sub]) := by
  cases rb with
  | none => exact Or.inl rfl
  | some rbv =>
    cases resp with
    | none => exact Or.inl rfl
    | some body =>
      by_cases hb : body = strBytes (generateRandomString rbv)
      · exact Or.inr ⟨rbv, body, rfl, rfl, hb,
          by simp [verifySubscriber, verifyEvents, applyEvents, hb]⟩
      · exact Or.inl (by simp [verifySubscriber, verifyEvents, applyEvents, hb])

lemma lockCheck_posts (l : List (HttpRequest × Bool)) :
    lockCheck 0 (l.map fun ro => Event.deliveryPost ro.1 ro.2) = true := by
  induction l with
  | nil => rfl
  | cons a t ih => simp [lockCheck, ih]

/-! ## Claims -/

/-- **C1.** For every pending subscription, `verifySubscriber` appends the
subscriber to the Registry exactly when the challenge GET's response body is
byte-for-byte equal to the generated challenge token; any other body,
including the empty body, leaves the Registry unchanged (no append). -/
theorem verify_appends_iff_echo (reg : Registry) (sub : Subscriber)
    (rb body : List Nat) (hlen : rb.length = 16) :
    (verifySubscriber reg sub (some rb) (some body) = reg ++ [sub]
       ↔ body = strBytes (generateRandomString rb)) ∧
    (body ≠ strBytes (generateRandomString rb) →
       verifySubscriber reg sub (some rb) (some body) = reg) ∧
    verifySubscriber reg sub (some rb) (some []) = reg := by
  have hne16 : rb ≠ [] := by
    intro h0
    rw [h0] at hlen
    simp at hlen
  have hch := challenge_strBytes_ne_nil rb hne16
  refine ⟨⟨fun hres => ?_, fun hb => ?_⟩, fun hb => ?_, ?_⟩
  · by_contra hneq
    rw [show verifySubscriber reg sub (some rb) (some body) = reg by
          simp [verifySubscriber, verifyEvents, applyEvents, hneq]] at hres
    simp at hres
  · simp [verifySubscriber, verifyEvents, applyEvents, hb]
  · simp [verifySubscriber, verifyEvents, applyEvents, hb]
  · have hnil : ([] : List Nat) ≠ strBytes (generateRandomString rb) :=
      fun h => hch h.symm
    simp [verifySubscriber, verifyEvents, applyEvents, hnil]

/-- Witness for C1: with a concrete 16-byte random string and an empty
response body, the registry is unchanged. -/
theorem verify_appends_iff_echo_witness :
    verifySubscriber [] ⟨"http://cb", "s", "t"⟩
      (some (List.replicate 16 0)) (some []) = [] :=
  (verify_appends_iff_echo [] ⟨"http://cb", "s", "t"⟩
    (List.replicate 16 0) [] (by simp)).2.2

/-- **C2.** A publish call reports the number of subscribers in the
point-in-time snapshot taken at the start of the call, independent of the
per-subscriber delivery outcomes. -/
theorem publish_count_is_snapshot_size (reg : Registry) (o1 o2 : List Bool) :
    (publishContent "GET" reg o1).count = reg.length ∧
    (publishContent "GET" reg o1).snapshot = reg ∧
    (publishContent "GET" reg o1).response =
      ⟨200, "Content published to " ++ toString reg.length ++
        " verified subscribers.\n"⟩ ∧
    publishContent "GET" reg o1 = publishContent "GET" reg o2 := by
  refine ⟨?_, ?_, ?_, ?_⟩ <;> simp [publishContent]

set_option maxRecDepth 10000 in
/-- **C4.** The Signer returns the hex-encoded HMAC-SHA256 of the raw
message bytes keyed by the secret; it is deterministic (equal
(secret, message) pairs give equal signatures) and matches the RFC 4231
HMAC-SHA256 known-answer test vectors (test cases 1 and 2). -/
theorem signer_hmac_sha256 :
    (∀ s₁ m₁ s₂ m₂, s₁ = s₂ → m₁ = m₂ →
       createSignature s₁ m₁ = createSignature s₂ m₂) ∧
    (∀ s m, createSignature s m =
       hexEncode (hmacSha256 (strBytes s) (strBytes m))) ∧
    createSignature (String.mk (List.replicate 20 (Char.ofNat 0x0b)))
        "Hi There" =
      "b0344c61d8db38535ca8afceaf0bf12b881dc200c9833da726e9376c2e32cff7" ∧
    createSignature "Jefe" "what do ya want for nothing?" =
      "5bdcc146bf60754e6a042426089575c75a003f089d2739839dec58b964ec3843" := by
  exact ⟨fun s₁ m₁ s₂ m₂ hs hm => by rw [hs, hm], fun s m => rfl,
    by decide, by decide⟩

/-- Witness for C4: determinism at a concrete (secret, message) pair. -/
theorem signer_hmac_sha256_witness :
    createSignature "key" "payload" = createSignature "key" "payload" :=
  signer_hmac_sha256.1 "key" "payload" "key" "payload" rfl rfl

/-- **C5.** A POST subscribe request whose parsed form has an empty
`hub.callback` or an empty `hub.topic` gets HTTP 400 and leaves the
Registry unchanged; no verification is started (the trace is only the
error response). -/
theorem subscribe_missing_callback_or_topic_rejected (reg : Registry)
    (vs : Values) (rb : Option (List Nat)) (resp : Option (List Nat))
    (h : valuesGet vs "hub.callback" = "" ∨ valuesGet vs "hub.topic" = "") :
    (getSubscriberRequest reg "POST" (some vs) rb resp).1 =
      ⟨400, "Missing subscriber data"⟩ ∧
    (getSubscriberRequest reg "POST" (some vs) rb resp).2 = reg ∧
    subscribeEvents "POST" (some vs) rb resp =
      [Event.respond 400 "Missing subscriber data"] := by
  have hguard : valuesGet vs "hub.callback" = "" ∨
      valuesGet vs "hub.topic" = "" ∨ valuesGet vs "hub.secret" = "" := by
    rcases h with h | h
    · exact Or.inl h
    · exact Or.inr (Or.inl h)
  have hev : subscribeEvents "POST" (some vs) rb resp =
      [Event.respond 400 "Missing subscriber data"] := by
    simp only [subscribeEvents]
    rw [if_neg (by simp), if_pos hguard]
  refine ⟨?_, ?_, hev⟩
  · simp only [getSubscriberRequest]
    rw [hev]
    rfl
  · simp only [getSubscriberRequest]
    rw [hev]
    rfl

/-- Witness for C5: a form with a topic but no callback is rejected with
the registry untouched. -/
theorem subscribe_missing_callback_or_topic_rejected_witness :
    (getSubscriberRequest [] "POST" (some [("hub.topic", ["t"])]) none none).1 =
      ⟨400, "Missing subscriber data"⟩ ∧
    (getSubscriberRequest [] "POST" (some [("hub.topic", ["t"])]) none none).2 =
      ([] : Registry) ∧
    subscribeEvents "POST" (some [("hub.topic", ["t"])]) none none =
      [Event.respond 400 "Missing subscriber data"] :=
  subscribe_missing_callback_or_topic_rejected [] [("hub.topic", ["t"])]
    none none (Or.inl (by decide))

/-- **C6.** Successful verification appends unconditionally, with no
deduplication: two successful verifications of subscribers with the same
(callbackURL, topic) pair leave two distinct entries in the Registry. -/
theorem duplicate_verified_pairs_coexist (reg : Registry) (sub : Subscriber)
    (rb body : List Nat) (h : body = strBytes (generateRandomString rb)) :
    verifySubscriber (verifySubscriber reg sub (some rb) (some body)) sub
        (some rb) (some body) = reg ++ [sub, sub] ∧
    (verifySubscriber (verifySubscriber reg sub (some rb) (some body)) sub
        (some rb) (some body)).length = reg.length + 2 := by
  have h1 : ∀ r : Registry,
      verifySubscriber r sub (some rb) (some body) = r ++ [sub] := fun r => by
    simp [verifySubscriber, verifyEvents, applyEvents, h]
  rw [h1, h1]
  simp

/-- Witness for C6: two successful verifications of the same subscriber at a
concrete challenge leave two entries. -/
theorem duplicate_verified_pairs_coexist_witness :
    verifySubscriber
        (verifySubscriber [] ⟨"http://cb", "s", "t"⟩
          (some (List.replicate 16 0))
          (some (strBytes (generateRandomString (List.replicate 16 0)))))
        ⟨"http://cb", "s", "t"⟩ (some (List.replicate 16 0))
        (some (strBytes (generateRandomString (List.replicate 16 0)))) =
      [⟨"http://cb", "s", "t"⟩, ⟨"http://cb", "s", "t"⟩] :=
  (duplicate_verified_pairs_coexist [] ⟨"http://cb", "s", "t"⟩
    (List.replicate 16 0) _ rfl).1

/-- **C7.** Every subscriber in the publish snapshot gets exactly one
delivery request: a POST to its callback URL whose body is the payload
bytes, with `Content-Type: application/json` and `X-Hub-Signature` equal to
`"sha256="` followed by the hex HMAC-SHA256 of the exact payload bytes
under that subscriber's secret. -/
theorem delivery_request_shape (snap : Registry) (sub : Subscriber)
    (h : sub ∈ snap) :
    (deliveryRequests snap).length = snap.length ∧
    ∃ req ∈ deliveryRequests snap,
      req.method = "POST" ∧
      req.url = sub.callbackURL ∧
      req.body = jsonData ∧
      req.headers = [("Content-Type", "application/json"),
        ("X-Hub-Signature",
          "sha256=" ++ hexEncode (hmacSha256 (strBytes sub.secret) jsonData))] :=
  ⟨by simp [deliveryRequests],
   sendSignedContent sub jsonData (createSignatureBytes sub.secret jsonData),
   List.mem_map_of_mem _ h, rfl, rfl, rfl, rfl⟩

/-- Witness for C7: the delivery request for a concrete one-subscriber
snapshot. -/
theorem delivery_request_shape_witness :
    (deliveryRequests [⟨"http://cb", "s", "t"⟩]).length = 1 ∧
    ∃ req ∈ deliveryRequests [⟨"http://cb", "s", "t"⟩],
      req.method = "POST" ∧
      req.url = "http://cb" ∧
      req.body = jsonData ∧
      req.headers = [("Content-Type", "application/json"),
        ("X-Hub-Signature",
          "sha256=" ++ hexEncode (hmacSha256 (strBytes "s") jsonData))] :=
  delivery_request_shape [⟨"http://cb", "s", "t"⟩] ⟨"http://cb", "s", "t"⟩
    (by decide)

/-- **C10.** A POST subscribe request whose parsed form has an empty
`hub.secret` — even with non-empty callback and topic — gets HTTP 400
"Missing subscriber data" and leaves the Registry unchanged; no
verification is started (the non-empty-secret policy). -/
theorem subscribe_empty_secret_rejected (reg : Registry) (vs : Values)
    (rb : Option (List Nat)) (resp : Option (List Nat))
    (_hc : valuesGet vs "hub.callback" ≠ "")
    (_ht : valuesGet vs "hub.topic" ≠ "")
    (hs : valuesGet vs "hub.secret" = "") :
    (getSubscriberRequest reg "POST" (some vs) rb resp).1 =
      ⟨400, "Missing subscriber data"⟩ ∧
    (getSubscriberRequest reg "POST" (some vs) rb resp).2 = reg ∧
    subscribeEvents "POST" (some vs) rb resp =
      [Event.respond 400 "Missing subscriber data"] := by
  have hev : subscribeEvents "POST" (some vs) rb resp =
      [Event.respond 400 "Missing subscriber data"] := by
    simp only [subscribeEvents]
    rw [if_neg (by simp), if_pos (Or.inr (Or.inr hs))]
  refine ⟨?_, ?_, hev⟩
  · simp only [getSubscriberRequest]
    rw [hev]
    rfl
  · simp only [getSubscriberRequest]
    rw [hev]
    rfl

/-- Witness for C10: a form with callback and topic but an empty secret is
rejected with the registry untouched. -/
theorem subscribe_empty_secret_rejected_witness :
    (getSubscriberRequest [] "POST"
        (some [("hub.callback", ["http://cb"]), ("hub.topic", ["t"])])
        none none).1 = ⟨400, "Missing subscriber data"⟩ ∧
    (getSubscriberRequest [] "POST"
        (some [("hub.callback", ["http://cb"]), ("hub.topic", ["t"])])
        none none).2 = ([] : Registry) ∧
    subscribeEvents "POST"
        (some [("hub.callback", ["http://cb"]), ("hub.topic", ["t"])])
        none none =
      [Event.respond 400 "Missing subscriber data"] :=
  subscribe_empty_secret_rejected []
    [("hub.callback", ["http://cb"]), ("hub.topic", ["t"])] none none
    (by decide) (by decide) (by decide)

/-- **C3.** The Registry is append-only and only gains
challenge-verified subscribers: every operation of the system either leaves
the Registry unchanged or appends exactly one subscriber whose challenge
response matched the challenge token; in particular the old Registry is
always a prefix of the new one (no entry is ever removed). -/
theorem registry_append_only_verified (reg : Registry) (op : Op) :
    reg <+: stepRegistry reg op ∧
    (stepRegistry reg op = reg ∨
      ∃ vs rbv body sub,
        op = Op.subscribe "POST" (some vs) (some rbv) (some body) ∧
        body = strBytes (generateRandomString rbv) ∧
        stepRegistry reg op = reg ++ [sub]) := by
  have hmain : stepRegistry reg op = reg ∨
      ∃ vs rbv body sub,
        op = Op.subscribe "POST" (some vs) (some rbv) (some body) ∧
        body = strBytes (generateRandomString rbv) ∧
        stepRegistry reg op = reg ++ [sub] := by
    cases op with
    | publish m o => exact Or.inl rfl
    | resub m s => exact Or.inl rfl
    | fetchLogs b => exact Or.inl rfl
    | subscribe m p rb resp =>
      simp only [stepRegistry, getSubscriberRequest]
      by_cases hm : m = "POST"
      · subst hm
        cases p with
        | none => exact Or.inl (by simp [subscribeEvents, applyEvents])
        | some vs =>
          by_cases hval : valuesGet vs "hub.callback" = "" ∨
              valuesGet vs "hub.topic" = "" ∨ valuesGet vs "hub.secret" = ""
          · refine Or.inl ?_
            simp only [subscribeEvents]
            rw [if_neg (by simp), if_pos hval]
            rfl
          · have hacc : applyEvents reg
                (subscribeEvents "POST" (some vs) rb resp) =
                verifySubscriber reg
                  ⟨valuesGet vs "hub.callback", valuesGet vs "hub.secret",
                   valuesGet vs "hub.topic"⟩ rb resp := by
              simp only [subscribeEvents]
              rw [if_neg (by simp), if_neg hval]
              rw [applyEvents_respond]
              rfl
            rw [hacc]
            rcases verifySubscriber_cases reg
                ⟨valuesGet vs "hub.callback", valuesGet vs "hub.secret",
                 valuesGet vs "hub.topic"⟩ rb resp with hsame | ⟨rbv, body, hrb, hresp, hb, happ⟩
            · exact Or.inl hsame
            · subst hrb
              subst hresp
              exact Or.inr ⟨vs, rbv, body,
                ⟨valuesGet vs "hub.callback", valuesGet vs "hub.secret",
                 valuesGet vs "hub.topic"⟩, rfl, hb, happ⟩
      · exact Or.inl (by simp [subscribeEvents, hm, applyEvents])
  refine ⟨?_, hmain⟩
  rcases hmain with h | ⟨_, _, _, sub, _, _, h⟩
  · rw [h]
  · rw [h]
    exact List.prefix_append reg [sub]

/-- **C8.** Every registry access (the snapshot copy and the append)
happens while the mutex is held, and the mutex is never held during an
outbound network call, in both the Verifier's and the Publisher's traces:
the Verifier locks only around the append after the challenge round trip,
and the Publisher unlocks after copying before issuing any delivery. -/
theorem registry_lock_discipline (m : String) (p : Option Values)
    (rb : Option (List Nat)) (resp : Option (List Nat)) (reg : Registry)
    (o : List Bool) :
    lockCheck 0 (subscribeEvents m p rb resp) = true ∧
    lockCheck 0 (publishEvents m reg o) = true := by
  constructor
  · by_cases hm : m = "POST"
    · subst hm
      cases p with
      | none => rfl
      | some vs =>
        simp only [subscribeEvents]
        rw [if_neg (by simp)]
        by_cases hval : valuesGet vs "hub.callback" = "" ∨
            valuesGet vs "hub.topic" = "" ∨ valuesGet vs "hub.secret" = ""
        · rw [if_pos hval]
          rfl
        · rw [if_neg hval]
          cases rb with
          | none => rfl
          | some rbv =>
            cases resp with
            | none => rfl
            | some body =>
              by_cases hb : body = strBytes (generateRandomString rbv)
              · simp [verifyEvents, lockCheck, hb]
              · simp [verifyEvents, lockCheck, hb]
    · simp [subscribeEvents, hm, lockCheck]
  · by_cases hg : m = "GET"
    · subst hg
      simp only [publishEvents]
      rw [if_neg (by simp)]
      simp only [List.cons_append, List.nil_append, lockCheck]
      simpa using lockCheck_posts (List.zip (deliveryRequests reg) o)
    · simp [publishEvents, hg, lockCheck]

/-- **C9.** For every accepted subscribe request, the acknowledgment is
written to the caller strictly before the challenge verification of that
subscriber begins: the trace is the 200 response followed by the
verification events, and verification itself writes no response. -/
theorem response_precedes_verification (vs : Values)
    (rb : Option (List Nat)) (resp : Option (List Nat))
    (hc : valuesGet vs "hub.callback" ≠ "")
    (ht : valuesGet vs "hub.topic" ≠ "")
    (hs : valuesGet vs "hub.secret" ≠ "") :
    subscribeEvents "POST" (some vs) rb resp =
      Event.respond 200 "Subscription request received." ::
        verifyEvents ⟨valuesGet vs "hub.callback", valuesGet vs "hub.secret",
          valuesGet vs "hub.topic"⟩ rb resp ∧
    firstResponse (subscribeEvents "POST" (some vs) rb resp) =
      some ⟨200, "Subscription request received."⟩ ∧
    ∀ e ∈ verifyEvents ⟨valuesGet vs "hub.callback",
        valuesGet vs "hub.secret", valuesGet vs "hub.topic"⟩ rb resp,
      ∀ s b, e ≠ Event.respond s b := by
  have hval : ¬(valuesGet vs "hub.callback" = "" ∨
      valuesGet vs "hub.topic" = "" ∨ valuesGet vs "hub.secret" = "") := by
    intro h
    rcases h with h | h | h
    · exact hc h
    · exact ht h
    · exact hs h
  have hev : subscribeEvents "POST" (some vs) rb resp =
      Event.respond 200 "Subscription request received." ::
        verifyEvents ⟨valuesGet vs "hub.callback", valuesGet vs "hub.secret",
          valuesGet vs "hub.topic"⟩ rb resp := by
    simp only [subscribeEvents]
    rw [if_neg (by simp), if_neg hval]
  refine ⟨hev, by rw [hev]; rfl, ?_⟩
  intro e he s b
  cases rb with
  | none => simp [verifyEvents] at he
  | some rbv =>
    cases resp with
    | none =>
      simp [verifyEvents] at he
      subst he
      simp
    | some body =>
      by_cases hb : body = strBytes (generateRandomString rbv)
      · simp [verifyEvents, hb] at he
        rcases he with he | he | he | he <;> subst he <;> simp
      · simp [verifyEvents, hb] at he
        subst he
        simp

/-- Witness for C9: an accepted concrete request responds first, with the
verification events after the response. -/
theorem response_precedes_verification_witness :
    subscribeEvents "POST"
        (some [("hub.callback", ["http://cb"]), ("hub.secret", ["s"]),
               ("hub.topic", ["t"])]) none none =
      Event.respond 200 "Subscription request received." ::
        verifyEvents ⟨"http://cb", "s", "t"⟩ none none :=
  (response_precedes_verification
    [("hub.callback", ["http://cb"]), ("hub.secret", ["s"]),
     ("hub.topic", ["t"])] none none
    (by decide) (by decide) (by decide)).1

end Hub
